import Mathlib

/-!
Verification of the CoinGame 2D platformer (`src/components/Game.tsx`).

This file gives a shallow embedding of the game's core simulation code and
proves properties of it.  JavaScript numbers are modelled as exact rationals
(`ℚ`); the decimal constants of the source (`0.3`, `0.98`, ...) are written as
the corresponding rational literals.

The source contains two frame-loop code paths:
* an older `gameLoop` (integration followed by platform, Ethernet-cord and
  whale collision handling, then friction), embedded here as `loopIntegrate`,
  `loopPlatformStep`, `cordStep`, `whaleStep`, `applyFriction`,
  `resolveCollisions` and `gameLoopTick`;
* `updateGameObject` (input handling, variable-height jump, gravity, platform
  landing with a from-above heuristic, canvas-bounds clamp), embedded as
  `integrate`, `platformLandStep`, `clampToCanvas` and `updateGameObject`.
-/

namespace CoinGame

/-- The player body (`interface GameObject`, Game.tsx lines 4-13). -/
structure GameObject where
  x : ℚ
  y : ℚ
  width : ℚ
  height : ℚ
  velocityY : ℚ
  velocityX : ℚ
  isJumping : Bool
  jumpTime : ℚ
  deriving DecidableEq

/-- A static platform rectangle (`interface Platform`, lines 15-20). -/
structure Platform where
  x : ℚ
  y : ℚ
  width : ℚ
  height : ℚ
  deriving DecidableEq

/-- A hazard rectangle (`interface EthernetCord`, lines 22-27). -/
structure EthernetCord where
  x : ℚ
  y : ℚ
  width : ℚ
  height : ℚ
  deriving DecidableEq

/-- The toggled creature (`interface Whale`, lines 29-35). -/
structure Whale where
  x : ℚ
  y : ℚ
  width : ℚ
  height : ℚ
  isVisible : Bool
  deriving DecidableEq

/-- The key-state snapshot (`keys: { [key: string]: boolean }`).
`updateGameObject` reads exactly the keys `'ArrowLeft'`, `'ArrowRight'` and
`' '` (space); a missing entry reads as `false`. -/
structure Keys where
  arrowLeft : Bool
  arrowRight : Bool
  space : Bool
  deriving DecidableEq

/-- `const GRAVITY = 0.3` (line 38). -/
def GRAVITY : ℚ := 3 / 10

/-- `const INITIAL_JUMP_FORCE = -10` (line 39). -/
def INITIAL_JUMP_FORCE : ℚ := -10

/-- `const MAX_JUMP_TIME = 15` (line 40). -/
def MAX_JUMP_TIME : ℚ := 15

/-- `const HOLD_JUMP_FORCE = -0.5` (line 41). -/
def HOLD_JUMP_FORCE : ℚ := -(1 / 2)

/-- `const MOVEMENT_SPEED = 3` (line 42). -/
def MOVEMENT_SPEED : ℚ := 3

/-- `const FRICTION = 0.98` (line 43). -/
def FRICTION : ℚ := 98 / 100

/-- First entry of `PLATFORMS` (line 46). -/
def PLAT1 : Platform := ⟨0, 400, 800, 20⟩

/-- Second entry of `PLATFORMS` (line 47). -/
def PLAT2 : Platform := ⟨300, 300, 200, 20⟩

/-- Third entry of `PLATFORMS` (line 48). -/
def PLAT3 : Platform := ⟨100, 200, 200, 20⟩

/-- `const PLATFORMS: Platform[]` (lines 45-49). -/
def PLATFORMS : List Platform := [PLAT1, PLAT2, PLAT3]

/-- First entry of `ETHERNET_CORDS` (line 52). -/
def CORD1 : EthernetCord := ⟨150, 350, 100, 10⟩

/-- Second entry of `ETHERNET_CORDS` (line 53). -/
def CORD2 : EthernetCord := ⟨450, 250, 100, 10⟩

/-- `const ETHERNET_CORDS: EthernetCord[]` (lines 51-54). -/
def ETHERNET_CORDS : List EthernetCord := [CORD1, CORD2]

/-- `const WHALE: Whale` (lines 56-62).  The running game only ever flips the
`isVisible` field (the 10-second toggle, lines 181-190); the rectangle never
changes. -/
def WHALE : Whale := ⟨600, 100, 200, 100, false⟩

/-- The inline platform-overlap test of the older `gameLoop`
(lines 122-125). -/
def hitsPlat (g : GameObject) (p : Platform) : Prop :=
  g.x < p.x + p.width ∧ g.x + g.width > p.x ∧
  g.y < p.y + p.height ∧ g.y + g.height > p.y

instance (g : GameObject) (p : Platform) : Decidable (hitsPlat g p) := by
  unfold hitsPlat; infer_instance

/-- The inline Ethernet-cord overlap test of the older `gameLoop`
(lines 134-137). -/
def hitsCord (g : GameObject) (c : EthernetCord) : Prop :=
  g.x < c.x + c.width ∧ g.x + g.width > c.x ∧
  g.y < c.y + c.height ∧ g.y + g.height > c.y

instance (g : GameObject) (c : EthernetCord) : Decidable (hitsCord g c) := by
  unfold hitsCord; infer_instance

/-- The inline whale-overlap test of the older `gameLoop` (lines 150-153);
the rectangle read from the `whale` state is always `WHALE`'s rectangle. -/
def hitsWhale (g : GameObject) : Prop :=
  g.x < WHALE.x + WHALE.width ∧ g.x + g.width > WHALE.x ∧
  g.y < WHALE.y + WHALE.height ∧ g.y + g.height > WHALE.y

instance (g : GameObject) : Decidable (hitsWhale g) := by
  unfold hitsWhale; infer_instance

/-- `checkCollision` (lines 225-232): the axis-aligned bounding-box overlap
test used by `updateGameObject`, a pure boolean function. -/
def checkCollision (obj : GameObject) (platform : Platform) : Bool :=
  decide (obj.x < platform.x + platform.width ∧
    obj.x + obj.width > platform.x ∧
    obj.y < platform.y + platform.height ∧
    obj.y + obj.height > platform.y)

/-- The integration part of `updateGameObject` (lines 235-268): copy the
record, apply horizontal input acceleration, friction, horizontal movement,
the jump/hold-jump rules, gravity and vertical movement.  The jump rules read
only fields not yet modified in the tick, so they read the input record's
values. -/
def integrate (g : GameObject) (k : Keys) : GameObject :=
  let vx1 := if k.arrowLeft then g.velocityX - MOVEMENT_SPEED * (1 / 10) else g.velocityX
  let vx2 := if k.arrowRight then vx1 + MOVEMENT_SPEED * (1 / 10) else vx1
  let vx3 := vx2 * FRICTION
  let jump : ℚ × Bool × ℚ :=
    if k.space then
      if g.isJumping = false then (INITIAL_JUMP_FORCE, true, 0)
      else if g.jumpTime < MAX_JUMP_TIME then
        (g.velocityY + HOLD_JUMP_FORCE, g.isJumping, g.jumpTime + 1)
      else (g.velocityY, g.isJumping, g.jumpTime)
    else (g.velocityY, g.isJumping, MAX_JUMP_TIME)
  let vy1 := jump.1 + GRAVITY
  { x := g.x + vx3, y := g.y + vy1, width := g.width, height := g.height,
    velocityY := vy1, velocityX := vx3, isJumping := jump.2.1,
    jumpTime := jump.2.2 }

/-- One platform iteration of `updateGameObject`'s landing loop
(lines 272-282): `g0` is the pre-tick record (the source's `gameObject`,
read by the from-above heuristic), `g` the evolving `newGameObject`.
The unused `isOnPlatform` flag of the source is omitted. -/
def platformLandStep (g0 : GameObject) (g : GameObject) (p : Platform) : GameObject :=
  if checkCollision g p = true ∧ g0.y + g0.height ≤ p.y + 10 then
    { g with y := p.y - g.height, velocityY := 0, isJumping := false }
  else g

/-- The canvas-bounds clamp of `updateGameObject` (lines 285-286). -/
def clampToCanvas (g : GameObject) : GameObject :=
  { g with x := max 0 (min (800 - g.width) g.x),
           y := max 0 (min (500 - g.height) g.y) }

/-- `updateGameObject` (lines 234-289): integration, the platform-landing
loop over `PLATFORMS`, then the bounds clamp. -/
def updateGameObject (g : GameObject) (k : Keys) : GameObject :=
  clampToCanvas (PLATFORMS.foldl (platformLandStep g) (integrate g k))

/-- The integration part of the older `gameLoop` (lines 116-118):
gravity, then `x += velocityX`, then `y += velocityY`. -/
def loopIntegrate (g : GameObject) : GameObject :=
  { g with velocityY := g.velocityY + GRAVITY,
           x := g.x + g.velocityX,
           y := g.y + (g.velocityY + GRAVITY) }

/-- One platform iteration of the older `gameLoop` (lines 121-130): on any
overlap, snap the bottom to the platform top, zero `velocityY`, clear
`isJumping` (no from-above heuristic in this loop). -/
def loopPlatformStep (g : GameObject) (p : Platform) : GameObject :=
  if hitsPlat g p then
    { g with y := p.y - g.height, velocityY := 0, isJumping := false }
  else g

/-- The platform phase of the older `gameLoop`: the `PLATFORMS.forEach`
of lines 121-130. -/
def platformPhase (g : GameObject) : GameObject :=
  PLATFORMS.foldl loopPlatformStep g

/-- One Ethernet-cord iteration of the older `gameLoop` (lines 133-146):
on overlap, reset the player to the initial spawn state. -/
def cordStep (g : GameObject) (c : EthernetCord) : GameObject :=
  if hitsCord g c then
    { g with x := 50, y := 200, velocityY := 0, velocityX := 0,
             isJumping := false, jumpTime := 0 }
  else g

/-- The hazard phase of the older `gameLoop`: the `ethernetCords.forEach`
of lines 133-146. -/
def cordPhase (g : GameObject) : GameObject :=
  ETHERNET_CORDS.foldl cordStep g

/-- The whale check of the older `gameLoop` (lines 148-158): only while
visible, any overlap snaps the player onto the whale's top. -/
def whaleStep (isVisible : Bool) (g : GameObject) : GameObject :=
  if isVisible = true ∧ hitsWhale g then
    { g with y := WHALE.y - g.height, velocityY := 0, isJumping := false }
  else g

/-- `gameObject.velocityX *= FRICTION` (line 161). -/
def applyFriction (g : GameObject) : GameObject :=
  { g with velocityX := g.velocityX * FRICTION }

/-- The collision-resolution part of the older `gameLoop` (lines 121-161),
in source order: platforms, then Ethernet cords, then the whale, then
friction. -/
def resolveCollisions (isVisible : Bool) (g : GameObject) : GameObject :=
  applyFriction (whaleStep isVisible (cordPhase (platformPhase g)))

/-- One full tick of the older `gameLoop` (lines 114-161): integration
followed by collision resolution. -/
def gameLoopTick (isVisible : Bool) (g : GameObject) : GameObject :=
  resolveCollisions isVisible (loopIntegrate g)

/-- Modelled from the spec (section 4.3, "Resolution order: platforms first,
then creature, then hazards"): the resolver the specification describes,
identical to `resolveCollisions` except that the creature check runs before
the hazard checks.  Used only to compare the spec's stated order with the
code's actual order. -/
def resolveCollisionsClaimOrder (isVisible : Bool) (g : GameObject) : GameObject :=
  applyFriction (cordPhase (whaleStep isVisible (platformPhase g)))

/-! ### Helper lemmas -/

lemma platformLandStep_width (g0 g : GameObject) (p : Platform) :
    (platformLandStep g0 g p).width = g.width := by
  unfold platformLandStep; split <;> rfl

lemma platformLandStep_height (g0 g : GameObject) (p : Platform) :
    (platformLandStep g0 g p).height = g.height := by
  unfold platformLandStep; split <;> rfl

lemma platformLandStep_jumpTime (g0 g : GameObject) (p : Platform) :
    (platformLandStep g0 g p).jumpTime = g.jumpTime := by
  unfold platformLandStep; split <;> rfl

lemma foldl_platformLandStep_width (g0 : GameObject) :
    ∀ (l : List Platform) (g : GameObject),
      (l.foldl (platformLandStep g0) g).width = g.width := by
  intro l
  induction l with
  | nil => intro g; rfl
  | cons p l ih =>
      intro g
      rw [List.foldl_cons, ih, platformLandStep_width]

lemma foldl_platformLandStep_height (g0 : GameObject) :
    ∀ (l : List Platform) (g : GameObject),
      (l.foldl (platformLandStep g0) g).height = g.height := by
  intro l
  induction l with
  | nil => intro g; rfl
  | cons p l ih =>
      intro g
      rw [List.foldl_cons, ih, platformLandStep_height]

lemma foldl_platformLandStep_jumpTime (g0 : GameObject) :
    ∀ (l : List Platform) (g : GameObject),
      (l.foldl (platformLandStep g0) g).jumpTime = g.jumpTime := by
  intro l
  induction l with
  | nil => intro g; rfl
  | cons p l ih =>
      intro g
      rw [List.foldl_cons, ih, platformLandStep_jumpTime]

lemma integrate_width (g : GameObject) (k : Keys) :
    (integrate g k).width = g.width := rfl

lemma integrate_height (g : GameObject) (k : Keys) :
    (integrate g k).height = g.height := rfl

lemma clampToCanvas_width (g : GameObject) : (clampToCanvas g).width = g.width := rfl

lemma clampToCanvas_height (g : GameObject) : (clampToCanvas g).height = g.height := rfl

lemma clampToCanvas_velocityY (g : GameObject) :
    (clampToCanvas g).velocityY = g.velocityY := rfl

lemma clampToCanvas_isJumping (g : GameObject) :
    (clampToCanvas g).isJumping = g.isJumping := rfl

lemma clampToCanvas_jumpTime (g : GameObject) :
    (clampToCanvas g).jumpTime = g.jumpTime := rfl

/-! ### C8: the overlap test -/

/-- C8.  `checkCollision` returns `true` exactly when the two axis-aligned
rectangles intersect with nonzero area, i.e. when all four strict
inequalities `obj.x < platform.x + platform.width`,
`obj.x + obj.width > platform.x`, `obj.y < platform.y + platform.height`
and `obj.y + obj.height > platform.y` hold; as a Lean function it is pure,
total and has no error cases. -/
theorem checkCollision_iff (obj : GameObject) (platform : Platform) :
    checkCollision obj platform = true ↔
      (obj.x < platform.x + platform.width ∧
       obj.x + obj.width > platform.x ∧
       obj.y < platform.y + platform.height ∧
       obj.y + obj.height > platform.y) := by
  unfold checkCollision
  exact decide_eq_true_iff

/-! ### C10: updateGameObject is a pure function preserving the size -/

/-- C10.  `updateGameObject` operates on a copy and returns a new record:
in this embedding it is a pure function of its arguments, so the input
record is unchanged by the call, and the returned record keeps the input's
`width` and `height`. -/
theorem update_preserves_size (g : GameObject) (k : Keys) :
    (updateGameObject g k).width = g.width ∧
    (updateGameObject g k).height = g.height := by
  unfold updateGameObject
  constructor
  · rw [clampToCanvas_width, foldl_platformLandStep_width, integrate_width]
  · rw [clampToCanvas_height, foldl_platformLandStep_height, integrate_height]

/-! ### C1: the bounds clamp -/

/-- C1 (amended).  For every player body whose width fits the 800-unit-wide
and whose height fits the 500-unit-tall playfield, the body returned by one
tick of `updateGameObject` has `x ∈ [0, 800 - width]` and
`y ∈ [0, 500 - height]`. -/
theorem clamp_invariant (g : GameObject) (k : Keys)
    (hw : g.width ≤ 800) (hh : g.height ≤ 500) :
    0 ≤ (updateGameObject g k).x ∧ (updateGameObject g k).x ≤ 800 - g.width ∧
    0 ≤ (updateGameObject g k).y ∧ (updateGameObject g k).y ≤ 500 - g.height := by
  unfold updateGameObject
  set s := PLATFORMS.foldl (platformLandStep g) (integrate g k) with hs
  have hsw : s.width = g.width := by
    rw [hs, foldl_platformLandStep_width, integrate_width]
  have hsh : s.height = g.height := by
    rw [hs, foldl_platformLandStep_height, integrate_height]
  unfold clampToCanvas
  refine ⟨le_max_left 0 _, ?_, le_max_left 0 _, ?_⟩
  · rw [hsw]
    exact max_le (by linarith) (le_trans (min_le_left _ _) (le_refl _))
  · rw [hsh]
    exact max_le (by linarith) (le_trans (min_le_left _ _) (le_refl _))

/-- Witness for C1: the initial player body (width 32, height 32) under an
empty key snapshot. -/
theorem clamp_invariant_witness :
    (32 : ℚ) ≤ 800 ∧ (32 : ℚ) ≤ 500 ∧
    (0 ≤ (updateGameObject ⟨50, 200, 32, 32, 0, 0, false, 0⟩ ⟨false, false, false⟩).x ∧
     (updateGameObject ⟨50, 200, 32, 32, 0, 0, false, 0⟩ ⟨false, false, false⟩).x ≤
       800 - (32 : ℚ) ∧
     0 ≤ (updateGameObject ⟨50, 200, 32, 32, 0, 0, false, 0⟩ ⟨false, false, false⟩).y ∧
     (updateGameObject ⟨50, 200, 32, 32, 0, 0, false, 0⟩ ⟨false, false, false⟩).y ≤
       500 - (32 : ℚ)) :=
  ⟨by norm_num, by norm_num,
    clamp_invariant ⟨50, 200, 32, 32, 0, 0, false, 0⟩ ⟨false, false, false⟩
      (by norm_num) (by norm_num)⟩

/-- Counterexample to C1 as stated: for a body of width 900 the claimed
interval `[0, 800 - width]` is empty, yet `updateGameObject` still returns
an `x` (namely 0), which therefore exceeds `800 - width`. -/
theorem clamp_invariant_cex :
    (updateGameObject ⟨0, 0, 900, 32, 0, 0, false, 15⟩ ⟨false, false, false⟩).x = 0 ∧
    ¬ (updateGameObject ⟨0, 0, 900, 32, 0, 0, false, 15⟩ ⟨false, false, false⟩).x ≤
        800 - (900 : ℚ) := by
  have h : (updateGameObject ⟨0, 0, 900, 32, 0, 0, false, 15⟩ ⟨false, false, false⟩).x = 0 := by
    norm_num [updateGameObject, integrate, platformLandStep, checkCollision,
      clampToCanvas, PLATFORMS, PLAT1, PLAT2, PLAT3, GRAVITY, FRICTION,
      MOVEMENT_SPEED, MAX_JUMP_TIME, List.foldl]
  exact ⟨h, by rw [h]; norm_num⟩

/-! ### C2: the jump-hold counter -/

lemma integrate_jumpTime_cases (g : GameObject) (k : Keys) :
    (integrate g k).jumpTime = 0 ∨ (integrate g k).jumpTime = MAX_JUMP_TIME ∨
    (integrate g k).jumpTime = g.jumpTime ∨
    ((integrate g k).jumpTime = g.jumpTime + 1 ∧ g.jumpTime < MAX_JUMP_TIME) := by
  unfold integrate
  by_cases hs : k.space
  · by_cases hj : g.isJumping = false
    · left; simp [hs, hj]
    · by_cases ht : g.jumpTime < MAX_JUMP_TIME
      · right; right; right
        constructor
        · simp [hs, hj, ht]
        · exact ht
      · right; right; left; simp [hs, hj, ht]
  · right; left; simp [hs]

lemma updateGameObject_jumpTime (g : GameObject) (k : Keys) :
    (updateGameObject g k).jumpTime = (integrate g k).jumpTime := by
  unfold updateGameObject
  rw [clampToCanvas_jumpTime, foldl_platformLandStep_jumpTime]

/-- C2 (amended).  For every player body whose `jumpTime` is an integer at
most `MAX_JUMP_TIME = 15` and every key snapshot, the body returned by
`updateGameObject` again has `jumpTime` at most 15: the hold counter never
exceeds the configured maximum. -/
theorem jumpTime_le_max (g : GameObject) (k : Keys) (n : ℤ)
    (hn : g.jumpTime = (n : ℚ)) (h15 : g.jumpTime ≤ 15) :
    (updateGameObject g k).jumpTime ≤ 15 := by
  rw [updateGameObject_jumpTime]
  rcases integrate_jumpTime_cases g k with h | h | h | ⟨h, hlt⟩
  · rw [h]; norm_num
  · rw [h]; norm_num [MAX_JUMP_TIME]
  · rw [h]; exact h15
  · rw [h, hn]
    rw [hn] at hlt
    unfold MAX_JUMP_TIME at hlt
    have hn15 : n < 15 := by exact_mod_cast hlt
    have : n + 1 ≤ 15 := by omega
    have : ((n : ℚ) + 1) ≤ 15 := by exact_mod_cast this
    exact this

/-- Witness for C2: the initial body (`jumpTime = 0`) with space held. -/
theorem jumpTime_le_max_witness :
    (⟨50, 200, 32, 32, 0, 0, false, 0⟩ : GameObject).jumpTime = ((0 : ℤ) : ℚ) ∧
    (⟨50, 200, 32, 32, 0, 0, false, 0⟩ : GameObject).jumpTime ≤ 15 ∧
    (updateGameObject ⟨50, 200, 32, 32, 0, 0, false, 0⟩ ⟨false, false, true⟩).jumpTime ≤ 15 :=
  ⟨by norm_num, by norm_num,
    jumpTime_le_max ⟨50, 200, 32, 32, 0, 0, false, 0⟩ ⟨false, false, true⟩ 0
      (by norm_num) (by norm_num)⟩

/-- Counterexample to C2 as stated: a (non-integer) `jumpTime` of `29/2`
satisfies `jumpTime ≤ 15`, yet with the jump key held one tick raises it to
`31/2 > 15`. -/
theorem jumpTime_le_max_cex :
    (⟨600, 50, 32, 32, 0, 0, true, 29/2⟩ : GameObject).jumpTime ≤ 15 ∧
    (updateGameObject ⟨600, 50, 32, 32, 0, 0, true, 29/2⟩ ⟨false, false, true⟩).jumpTime =
      31 / 2 ∧
    ¬ ((31 / 2 : ℚ) ≤ 15) := by
  refine ⟨by norm_num, ?_, by norm_num⟩
  rw [updateGameObject_jumpTime]
  norm_num [integrate, MAX_JUMP_TIME]

/-! ### The hazard reset in the older game loop (C3, C4) -/

lemma loopPlatformStep_width (g : GameObject) (p : Platform) :
    (loopPlatformStep g p).width = g.width := by
  unfold loopPlatformStep; split <;> rfl

lemma loopPlatformStep_height (g : GameObject) (p : Platform) :
    (loopPlatformStep g p).height = g.height := by
  unfold loopPlatformStep; split <;> rfl

lemma platformPhase_width (g : GameObject) : (platformPhase g).width = g.width := by
  unfold platformPhase PLATFORMS
  simp only [List.foldl_cons, List.foldl_nil, loopPlatformStep_width]

lemma platformPhase_height (g : GameObject) : (platformPhase g).height = g.height := by
  unfold platformPhase PLATFORMS
  simp only [List.foldl_cons, List.foldl_nil, loopPlatformStep_height]

lemma loopIntegrate_width (g : GameObject) : (loopIntegrate g).width = g.width := rfl

lemma loopIntegrate_height (g : GameObject) : (loopIntegrate g).height = g.height := rfl

/-- Once the cord phase sees a state overlapping one of the two Ethernet
cords, the remainder of the tick (cord phase, whale check, friction) ends in
exactly the spawn state: the second cord can only re-apply the same reset,
the whale check never fires at the spawn position (its overlap test needs
`y < 200` but the spawn `y` is exactly 200), and friction maps the zero
horizontal velocity to zero. -/
lemma cord_reset (v : Bool) (s : GameObject)
    (h : hitsCord s CORD1 ∨ hitsCord s CORD2) :
    applyFriction (whaleStep v (cordPhase s)) =
      ⟨50, 200, s.width, s.height, 0, 0, false, 0⟩ := by
  have hcp : cordPhase s = ⟨50, 200, s.width, s.height, 0, 0, false, 0⟩ := by
    unfold cordPhase ETHERNET_CORDS
    simp only [List.foldl_cons, List.foldl_nil]
    by_cases h1 : hitsCord s CORD1
    · rw [show cordStep s CORD1 = ⟨50, 200, s.width, s.height, 0, 0, false, 0⟩ from by
        unfold cordStep; rw [if_pos h1]]
      unfold cordStep
      split <;> rfl
    · have h2 : hitsCord s CORD2 := h.resolve_left h1
      rw [show cordStep s CORD1 = s from by unfold cordStep; rw [if_neg h1]]
      unfold cordStep
      rw [if_pos h2]
  rw [hcp]
  have hws : whaleStep v ⟨50, 200, s.width, s.height, 0, 0, false, 0⟩ =
      ⟨50, 200, s.width, s.height, 0, 0, false, 0⟩ := by
    unfold whaleStep
    rw [if_neg]
    rintro ⟨-, hw⟩
    unfold hitsWhale at hw
    obtain ⟨-, -, hy, -⟩ := hw
    norm_num [WHALE] at hy
  rw [hws]
  simp [applyFriction]

/-- C3 (amended).  For every player body that, at the point of the hazard
check inside the tick (after integration and the platform phase), overlaps
one of the hazard rectangles, the tick ends in exactly the initial spawn
state `{x := 50, y := 200, velocityY := 0, velocityX := 0,
isJumping := false, jumpTime := 0}` (width and height preserved), regardless
of prior velocity or jump state and regardless of whale visibility. -/
theorem hazard_reset (v : Bool) (g : GameObject)
    (h : hitsCord (platformPhase (loopIntegrate g)) CORD1 ∨
         hitsCord (platformPhase (loopIntegrate g)) CORD2) :
    gameLoopTick v g = ⟨50, 200, g.width, g.height, 0, 0, false, 0⟩ := by
  unfold gameLoopTick resolveCollisions
  rw [cord_reset v _ h, platformPhase_width, platformPhase_height,
    loopIntegrate_width, loopIntegrate_height]

/-- Witness for C3: a body just above the second cord, whale invisible. -/
theorem hazard_reset_witness :
    (hitsCord (platformPhase (loopIntegrate ⟨450, 240, 32, 32, 0, 0, false, 0⟩)) CORD1 ∨
     hitsCord (platformPhase (loopIntegrate ⟨450, 240, 32, 32, 0, 0, false, 0⟩)) CORD2) ∧
    gameLoopTick false ⟨450, 240, 32, 32, 0, 0, false, 0⟩ =
      ⟨50, 200, 32, 32, 0, 0, false, 0⟩ :=
  ⟨Or.inr (by
      norm_num [platformPhase, loopIntegrate, loopPlatformStep, hitsPlat, hitsCord,
        PLATFORMS, PLAT1, PLAT2, PLAT3, CORD2, GRAVITY, List.foldl]),
    hazard_reset false ⟨450, 240, 32, 32, 0, 0, false, 0⟩
      (Or.inr (by
        norm_num [platformPhase, loopIntegrate, loopPlatformStep, hitsPlat, hitsCord,
          PLATFORMS, PLAT1, PLAT2, PLAT3, CORD2, GRAVITY, List.foldl]))⟩

/-- Counterexample to C3 as stated: a body overlapping the first cord at the
start of the tick, but moving upward fast (`velocityY = -100`), is carried
off the cord by the integration step before the hazard check runs, so the
tick does not reset it (its `x` stays 150 instead of becoming 50). -/
theorem hazard_reset_cex :
    hitsCord (⟨150, 340, 32, 32, -100, 0, true, 0⟩ : GameObject) CORD1 ∧
    (gameLoopTick false ⟨150, 340, 32, 32, -100, 0, true, 0⟩).x = 150 ∧
    (150 : ℚ) ≠ 50 := by
  refine ⟨by norm_num [hitsCord, CORD1], ?_, by norm_num⟩
  norm_num [gameLoopTick, resolveCollisions, loopIntegrate, platformPhase,
    cordPhase, whaleStep, applyFriction, loopPlatformStep, cordStep, hitsPlat,
    hitsCord, hitsWhale, PLATFORMS, PLAT1, PLAT2, PLAT3, ETHERNET_CORDS,
    CORD1, CORD2, WHALE, GRAVITY, FRICTION, List.foldl]

/-- C4 (amended).  In the older game loop the collision resolver evaluates
platforms first, then the hazards, then the creature (not platforms, creature,
hazards as the specification states).  Because the hazard checks still come
after the platform phase, a hazard overlap observed after the platform phase
overrides any platform snap computed in the same tick: the resolver then
returns exactly the spawn state, and the trailing creature check never undoes
the reset. -/
theorem resolution_order (v : Bool) (g : GameObject)
    (h : hitsCord (platformPhase g) CORD1 ∨ hitsCord (platformPhase g) CORD2) :
    resolveCollisions v g = ⟨50, 200, g.width, g.height, 0, 0, false, 0⟩ := by
  unfold resolveCollisions
  rw [cord_reset v _ h, platformPhase_width, platformPhase_height]

/-- Witness for C4: a body overlapping the second cord, whale visible. -/
theorem resolution_order_witness :
    (hitsCord (platformPhase ⟨460, 245, 32, 32, 0, 0, false, 0⟩) CORD1 ∨
     hitsCord (platformPhase ⟨460, 245, 32, 32, 0, 0, false, 0⟩) CORD2) ∧
    resolveCollisions true ⟨460, 245, 32, 32, 0, 0, false, 0⟩ =
      ⟨50, 200, 32, 32, 0, 0, false, 0⟩ :=
  ⟨Or.inr (by
      norm_num [platformPhase, loopPlatformStep, hitsPlat, hitsCord,
        PLATFORMS, PLAT1, PLAT2, PLAT3, CORD2, List.foldl]),
    resolution_order true ⟨460, 245, 32, 32, 0, 0, false, 0⟩
      (Or.inr (by
        norm_num [platformPhase, loopPlatformStep, hitsPlat, hitsCord,
          PLATFORMS, PLAT1, PLAT2, PLAT3, CORD2, List.foldl]))⟩

/-- Counterexample to C4 as stated: the code's resolver (platforms, hazards,
creature) differs from the spec-ordered resolver (platforms, creature,
hazards) on a wide body overlapping both the visible whale and the second
cord: the code resets it to `x = 50`, while the spec order would first snap
it onto the whale, off the cord, leaving `x = 400`. -/
theorem resolution_order_cex :
    (resolveCollisions true ⟨400, 150, 300, 120, 0, 0, false, 0⟩).x = 50 ∧
    (resolveCollisionsClaimOrder true ⟨400, 150, 300, 120, 0, 0, false, 0⟩).x = 400 ∧
    resolveCollisions true ⟨400, 150, 300, 120, 0, 0, false, 0⟩ ≠
      resolveCollisionsClaimOrder true ⟨400, 150, 300, 120, 0, 0, false, 0⟩ := by
  have h1 : (resolveCollisions true ⟨400, 150, 300, 120, 0, 0, false, 0⟩).x = 50 := by
    norm_num [resolveCollisions, platformPhase, cordPhase, whaleStep,
      applyFriction, loopPlatformStep, cordStep, hitsPlat, hitsCord, hitsWhale,
      PLATFORMS, PLAT1, PLAT2, PLAT3, ETHERNET_CORDS, CORD1, CORD2, WHALE,
      FRICTION, List.foldl]
  have h2 : (resolveCollisionsClaimOrder true ⟨400, 150, 300, 120, 0, 0, false, 0⟩).x = 400 := by
    norm_num [resolveCollisionsClaimOrder, platformPhase, cordPhase, whaleStep,
      applyFriction, loopPlatformStep, cordStep, hitsPlat, hitsCord, hitsWhale,
      PLATFORMS, PLAT1, PLAT2, PLAT3, ETHERNET_CORDS, CORD1, CORD2, WHALE,
      FRICTION, List.foldl]
  refine ⟨h1, h2, fun heq => ?_⟩
  have hx := congrArg GameObject.x heq
  rw [h1, h2] at hx
  norm_num at hx

/-! ### C5: platform landing in updateGameObject -/

/-- A state that has just been landed by `updateGameObject`'s platform loop:
vertical velocity zeroed, jump flag cleared, bottom edge on some platform's
top edge. -/
def Landed (s : GameObject) : Prop :=
  s.velocityY = 0 ∧ s.isJumping = false ∧ ∃ q ∈ PLATFORMS, s.y = q.y - s.height

lemma landed_step (g0 s : GameObject) (p : Platform) (hp : p ∈ PLATFORMS)
    (h : Landed s) : Landed (platformLandStep g0 s p) := by
  unfold platformLandStep
  split
  · exact ⟨rfl, rfl, p, hp, rfl⟩
  · exact h

lemma landed_fold (g0 : GameObject) :
    ∀ (l : List Platform), (∀ p ∈ l, p ∈ PLATFORMS) →
      ∀ s, Landed s → Landed (l.foldl (platformLandStep g0) s) := by
  intro l
  induction l with
  | nil => intro _ s h; exact h
  | cons a l ih =>
      intro hsub s h
      rw [List.foldl_cons]
      exact ih (fun p hp => hsub p (List.mem_cons_of_mem a hp))
        (platformLandStep g0 s a) (landed_step g0 s a (hsub a (List.mem_cons_self a l)) h)

/-- If some platform of the list satisfies both the overlap test (against the
state entering the loop) and the from-above heuristic, the loop lands the
state: either an earlier platform already fires, or the state reaches that
platform unchanged and it fires. -/
lemma fires_fold (g0 : GameObject) :
    ∀ (l : List Platform), (∀ p ∈ l, p ∈ PLATFORMS) →
      ∀ (s : GameObject) (p : Platform), p ∈ l →
        checkCollision s p = true → g0.y + g0.height ≤ p.y + 10 →
        Landed (l.foldl (platformLandStep g0) s) := by
  intro l
  induction l with
  | nil => intro _ s p hp; exact absurd hp (List.not_mem_nil p)
  | cons a l ih =>
      intro hsub s p hp hcol hab
      rw [List.foldl_cons]
      rcases List.mem_cons.mp hp with heq | hp'
      · subst heq
        rw [show platformLandStep g0 s p =
              { s with y := p.y - s.height, velocityY := 0, isJumping := false } from by
            unfold platformLandStep; rw [if_pos ⟨hcol, hab⟩]]
        exact landed_fold g0 l (fun q hq => hsub q (List.mem_cons_of_mem p hq)) _
          ⟨rfl, rfl, p, hsub p (List.mem_cons_self p l), rfl⟩
      · by_cases hfa : checkCollision s a = true ∧ g0.y + g0.height ≤ a.y + 10
        · rw [show platformLandStep g0 s a =
                { s with y := a.y - s.height, velocityY := 0, isJumping := false } from by
              unfold platformLandStep; rw [if_pos hfa]]
          exact landed_fold g0 l (fun q hq => hsub q (List.mem_cons_of_mem a hq)) _
            ⟨rfl, rfl, a, hsub a (List.mem_cons_self a l), rfl⟩
        · rw [show platformLandStep g0 s a = s from by
            unfold platformLandStep; rw [if_neg hfa]]
          exact ih (fun q hq => hsub q (List.mem_cons_of_mem a hq)) s p hp' hcol hab

/-- C5 (amended).  For every player body that is falling (`velocityY > 0`),
whose pre-tick bottom edge is at or above some platform's top edge within
the 10-unit tolerance, and whose post-integration bounding box overlaps that
platform, the body returned by `updateGameObject` has `velocityY` exactly 0,
`isJumping` false, and its `y` equal to the bounds-clamp of
`q.y - height` for some platform `q` (the platform matched last in iteration
order; it is the given platform when no other platform also matches). -/
theorem platform_landing (g : GameObject) (k : Keys) (p : Platform)
    (hp : p ∈ PLATFORMS) (_hfall : 0 < g.velocityY)
    (habove : g.y + g.height ≤ p.y + 10)
    (hcol : checkCollision (integrate g k) p = true) :
    (updateGameObject g k).velocityY = 0 ∧
    (updateGameObject g k).isJumping = false ∧
    ∃ q ∈ PLATFORMS,
      (updateGameObject g k).y = max 0 (min (500 - g.height) (q.y - g.height)) := by
  have hl : Landed (PLATFORMS.foldl (platformLandStep g) (integrate g k)) :=
    fires_fold g PLATFORMS (fun _ h => h) (integrate g k) p hp hcol habove
  obtain ⟨hvy, hj, q, hq, hy⟩ := hl
  have hsh : (PLATFORMS.foldl (platformLandStep g) (integrate g k)).height = g.height := by
    rw [foldl_platformLandStep_height, integrate_height]
  unfold updateGameObject
  refine ⟨?_, ?_, q, hq, ?_⟩
  · rw [clampToCanvas_velocityY]; exact hvy
  · rw [clampToCanvas_isJumping]; exact hj
  · have hc : (clampToCanvas (PLATFORMS.foldl (platformLandStep g) (integrate g k))).y =
        max 0 (min (500 - (PLATFORMS.foldl (platformLandStep g) (integrate g k)).height)
          (PLATFORMS.foldl (platformLandStep g) (integrate g k)).y) := rfl
    rw [hc, hy, hsh]

/-- Witness for C5: a 32×32 body falling fast onto the ground platform. -/
theorem platform_landing_witness :
    PLAT1 ∈ PLATFORMS ∧ (0 : ℚ) < 40 ∧
    ((⟨100, 360, 32, 32, 40, 0, true, 15⟩ : GameObject).y +
      (⟨100, 360, 32, 32, 40, 0, true, 15⟩ : GameObject).height ≤ PLAT1.y + 10) ∧
    checkCollision (integrate ⟨100, 360, 32, 32, 40, 0, true, 15⟩ ⟨false, false, false⟩)
      PLAT1 = true ∧
    ((updateGameObject ⟨100, 360, 32, 32, 40, 0, true, 15⟩ ⟨false, false, false⟩).velocityY = 0 ∧
     (updateGameObject ⟨100, 360, 32, 32, 40, 0, true, 15⟩ ⟨false, false, false⟩).isJumping = false ∧
     ∃ q ∈ PLATFORMS,
       (updateGameObject ⟨100, 360, 32, 32, 40, 0, true, 15⟩ ⟨false, false, false⟩).y =
         max 0 (min (500 - (32 : ℚ)) (q.y - (32 : ℚ)))) :=
  ⟨by simp [PLATFORMS], by norm_num, by norm_num [PLAT1],
    by norm_num [checkCollision, integrate, PLAT1, GRAVITY, FRICTION,
      MOVEMENT_SPEED, MAX_JUMP_TIME],
    platform_landing ⟨100, 360, 32, 32, 40, 0, true, 15⟩ ⟨false, false, false⟩ PLAT1
      (by simp [PLATFORMS]) (by norm_num) (by norm_num [PLAT1])
      (by norm_num [checkCollision, integrate, PLAT1, GRAVITY, FRICTION,
        MOVEMENT_SPEED, MAX_JUMP_TIME])⟩

/-- Counterexample to C5 as stated: a tall thin body falling onto the second
platform while also satisfying the landing conditions for the third platform
(checked later in iteration order): the loop first snaps it onto the second
platform, then the third platform's snap overrides, so its final bottom edge
is 200 (the third platform's top), not 300 (the second's). -/
theorem platform_landing_cex :
    (0 : ℚ) < (⟨290, 110, 20, 100, 997/10, 0, false, 0⟩ : GameObject).velocityY ∧
    ((⟨290, 110, 20, 100, 997/10, 0, false, 0⟩ : GameObject).y +
      (⟨290, 110, 20, 100, 997/10, 0, false, 0⟩ : GameObject).height ≤ PLAT2.y + 10) ∧
    checkCollision (integrate ⟨290, 110, 20, 100, 997/10, 0, false, 0⟩ ⟨false, false, false⟩)
      PLAT2 = true ∧
    (updateGameObject ⟨290, 110, 20, 100, 997/10, 0, false, 0⟩ ⟨false, false, false⟩).y +
      (updateGameObject ⟨290, 110, 20, 100, 997/10, 0, false, 0⟩ ⟨false, false, false⟩).height ≠
      PLAT2.y := by
  refine ⟨by norm_num, by norm_num [PLAT2], ?_, ?_⟩
  · norm_num [checkCollision, integrate, PLAT2, GRAVITY, FRICTION,
      MOVEMENT_SPEED, MAX_JUMP_TIME]
  · norm_num [updateGameObject, integrate, platformLandStep, checkCollision,
      clampToCanvas, PLATFORMS, PLAT1, PLAT2, PLAT3, GRAVITY, FRICTION,
      MOVEMENT_SPEED, MAX_JUMP_TIME, List.foldl]

/-! ### C6: starting a jump -/

lemma step_eq_of_nofire (g0 s : GameObject) (p : Platform)
    (h : ¬ (checkCollision s p = true ∧ g0.y + g0.height ≤ p.y + 10)) :
    platformLandStep g0 s p = s := by
  unfold platformLandStep; rw [if_neg h]

lemma nofire_fold (g0 : GameObject) :
    ∀ (l : List Platform) (s : GameObject),
      (∀ p ∈ l, ¬ (checkCollision s p = true ∧ g0.y + g0.height ≤ p.y + 10)) →
      l.foldl (platformLandStep g0) s = s := by
  intro l
  induction l with
  | nil => intro s _; rfl
  | cons a l ih =>
      intro s h
      rw [List.foldl_cons, step_eq_of_nofire g0 s a (h a (List.mem_cons_self a l))]
      exact ih s (fun p hp => h p (List.mem_cons_of_mem a hp))

/-- C6 (amended).  For every grounded player body (`isJumping = false`) and a
key snapshot with the jump key pressed, provided no platform landing fires in
the same tick, the state resolved by `updateGameObject` has
`velocityY = -97/10` (the -10 initial jump impulse plus the 0.3 of gravity
applied later in the same tick), `isJumping = true` and `jumpTime = 0`. -/
theorem jump_start (g : GameObject) (k : Keys)
    (hj : g.isJumping = false) (hs : k.space = true)
    (hn : ∀ p ∈ PLATFORMS,
      ¬ (checkCollision (integrate g k) p = true ∧ g.y + g.height ≤ p.y + 10)) :
    (updateGameObject g k).velocityY = -(97/10) ∧
    (updateGameObject g k).isJumping = true ∧
    (updateGameObject g k).jumpTime = 0 := by
  unfold updateGameObject
  rw [nofire_fold g PLATFORMS (integrate g k) hn]
  have h1 : (integrate g k).velocityY = INITIAL_JUMP_FORCE + GRAVITY := by
    unfold integrate; simp [hs, hj]
  have h2 : (integrate g k).isJumping = true := by
    unfold integrate; simp [hs, hj]
  have h3 : (integrate g k).jumpTime = 0 := by
    unfold integrate; simp [hs, hj]
  refine ⟨?_, ?_, ?_⟩
  · rw [clampToCanvas_velocityY, h1]; norm_num [INITIAL_JUMP_FORCE, GRAVITY]
  · rw [clampToCanvas_isJumping, h2]
  · rw [clampToCanvas_jumpTime, h3]

/-- Witness for C6: a grounded body in mid-air away from any platform,
jump key pressed. -/
theorem jump_start_witness :
    (⟨600, 50, 32, 32, 0, 0, false, 15⟩ : GameObject).isJumping = false ∧
    (⟨false, false, true⟩ : Keys).space = true ∧
    ((updateGameObject ⟨600, 50, 32, 32, 0, 0, false, 15⟩ ⟨false, false, true⟩).velocityY =
       -(97/10) ∧
     (updateGameObject ⟨600, 50, 32, 32, 0, 0, false, 15⟩ ⟨false, false, true⟩).isJumping =
       true ∧
     (updateGameObject ⟨600, 50, 32, 32, 0, 0, false, 15⟩ ⟨false, false, true⟩).jumpTime = 0) :=
  ⟨rfl, rfl,
    jump_start ⟨600, 50, 32, 32, 0, 0, false, 15⟩ ⟨false, false, true⟩ rfl rfl
      (by
        intro p hp
        simp only [PLATFORMS] at hp
        fin_cases hp <;>
          norm_num [checkCollision, integrate, PLAT1, PLAT2, PLAT3, GRAVITY,
            FRICTION, MOVEMENT_SPEED, INITIAL_JUMP_FORCE])⟩

/-- Counterexample to C6 as stated: from a grounded state with the jump key
pressed, the tick ends with `velocityY = -97/10 = -9.7`, not `-10`, because
gravity is added after the jump impulse within the same tick. -/
theorem jump_start_cex :
    (⟨600, 50, 32, 32, 0, 0, false, 15⟩ : GameObject).isJumping = false ∧
    (updateGameObject ⟨600, 50, 32, 32, 0, 0, false, 15⟩ ⟨false, false, true⟩).velocityY =
      -(97/10) ∧
    (-(97/10) : ℚ) ≠ -10 := by
  refine ⟨rfl, ?_, by norm_num⟩
  norm_num [updateGameObject, integrate, platformLandStep, checkCollision,
    clampToCanvas, PLATFORMS, PLAT1, PLAT2, PLAT3, GRAVITY, FRICTION,
    MOVEMENT_SPEED, INITIAL_JUMP_FORCE, MAX_JUMP_TIME, List.foldl]

/-! ### C7: the whale as a toggled platform -/

/-- C7.  For every player body overlapping the whale's rectangle: while the
whale is visible the check responds exactly like a platform landing of the
older loop (bottom snapped to the whale's top, `velocityY` zeroed,
`isJumping` cleared — literally the same response `loopPlatformStep` gives
for a platform with the whale's rectangle); while it is invisible the state
passes through completely unchanged. -/
theorem whale_landing_iff_visible (g : GameObject) (h : hitsWhale g) :
    whaleStep true g =
      { g with y := WHALE.y - g.height, velocityY := 0, isJumping := false } ∧
    whaleStep false g = g ∧
    whaleStep true g = loopPlatformStep g ⟨WHALE.x, WHALE.y, WHALE.width, WHALE.height⟩ := by
  have h' : hitsPlat g ⟨WHALE.x, WHALE.y, WHALE.width, WHALE.height⟩ := h
  refine ⟨?_, ?_, ?_⟩
  · unfold whaleStep; rw [if_pos ⟨rfl, h⟩]
  · unfold whaleStep
    rw [if_neg]
    rintro ⟨hv, -⟩
    exact absurd hv (by simp)
  · unfold whaleStep loopPlatformStep
    rw [if_pos ⟨rfl, h⟩, if_pos h']

/-- Witness for C7: a 32×32 body inside the whale's rectangle. -/
theorem whale_landing_iff_visible_witness :
    hitsWhale ⟨610, 150, 32, 32, 0, 0, true, 0⟩ ∧
    (whaleStep true ⟨610, 150, 32, 32, 0, 0, true, 0⟩ =
      { (⟨610, 150, 32, 32, 0, 0, true, 0⟩ : GameObject) with
          y := WHALE.y - (32 : ℚ), velocityY := 0, isJumping := false } ∧
     whaleStep false ⟨610, 150, 32, 32, 0, 0, true, 0⟩ =
       ⟨610, 150, 32, 32, 0, 0, true, 0⟩ ∧
     whaleStep true ⟨610, 150, 32, 32, 0, 0, true, 0⟩ =
       loopPlatformStep ⟨610, 150, 32, 32, 0, 0, true, 0⟩
         ⟨WHALE.x, WHALE.y, WHALE.width, WHALE.height⟩) :=
  ⟨by norm_num [hitsWhale, WHALE],
    whale_landing_iff_visible ⟨610, 150, 32, 32, 0, 0, true, 0⟩
      (by norm_num [hitsWhale, WHALE])⟩

/-! ### C9: isJumping is cleared only by a landing resolution -/

lemma step_isJumping_false (g0 s : GameObject) (p : Platform)
    (h : s.isJumping = false) : (platformLandStep g0 s p).isJumping = false := by
  unfold platformLandStep
  split
  · rfl
  · exact h

lemma step_isJumping_of_fire (g0 s : GameObject) (p : Platform)
    (h : checkCollision s p = true ∧ g0.y + g0.height ≤ p.y + 10) :
    (platformLandStep g0 s p).isJumping = false := by
  unfold platformLandStep; rw [if_pos h]

lemma integrate_isJumping_of_true (g : GameObject) (k : Keys)
    (hj : g.isJumping = true) : (integrate g k).isJumping = true := by
  unfold integrate
  by_cases hs : k.space <;> by_cases ht : g.jumpTime < MAX_JUMP_TIME <;>
    simp [hs, ht, hj]

/-- The landing resolutions `updateGameObject` can fire in one tick: for each
platform in iteration order, the overlap test against the state the loop
reaches that platform with, together with the from-above heuristic on the
pre-tick record. -/
def landingFired (g : GameObject) (k : Keys) : Prop :=
  (checkCollision (integrate g k) PLAT1 = true ∧
    g.y + g.height ≤ PLAT1.y + 10) ∨
  (checkCollision (platformLandStep g (integrate g k) PLAT1) PLAT2 = true ∧
    g.y + g.height ≤ PLAT2.y + 10) ∨
  (checkCollision (platformLandStep g (platformLandStep g (integrate g k) PLAT1) PLAT2)
      PLAT3 = true ∧
    g.y + g.height ≤ PLAT3.y + 10)

/-- C9.  For every player body with `isJumping = true` and every key
snapshot, one tick of `updateGameObject` ends with `isJumping = false`
exactly when one of the platform landing resolutions fires (an overlap
satisfying the from-above heuristic); in particular `velocityY` reaching or
crossing zero never grounds the player. -/
theorem isJumping_only_landing (g : GameObject) (k : Keys)
    (hj : g.isJumping = true) :
    ((updateGameObject g k).isJumping = false ↔ landingFired g k) := by
  unfold updateGameObject
  rw [clampToCanvas_isJumping]
  unfold PLATFORMS
  simp only [List.foldl_cons, List.foldl_nil]
  unfold landingFired
  constructor
  · intro hfalse
    by_contra hnf
    rw [not_or, not_or] at hnf
    obtain ⟨h1, h2, h3⟩ := hnf
    have e1 := step_eq_of_nofire g (integrate g k) PLAT1 h1
    have e2 := step_eq_of_nofire g (platformLandStep g (integrate g k) PLAT1) PLAT2 h2
    have e3 := step_eq_of_nofire g
      (platformLandStep g (platformLandStep g (integrate g k) PLAT1) PLAT2) PLAT3 h3
    rw [e3, e2, e1, integrate_isJumping_of_true g k hj] at hfalse
    exact absurd hfalse (by simp)
  · intro hf
    rcases hf with h1 | h2 | h3
    · exact step_isJumping_false _ _ _
        (step_isJumping_false _ _ _ (step_isJumping_of_fire _ _ _ h1))
    · exact step_isJumping_false _ _ _ (step_isJumping_of_fire _ _ _ h2)
    · exact step_isJumping_of_fire _ _ _ h3

/-- Witness for C9: an airborne jumping body away from all platforms. -/
theorem isJumping_only_landing_witness :
    (⟨600, 50, 32, 32, 0, 0, true, 15⟩ : GameObject).isJumping = true ∧
    ((updateGameObject ⟨600, 50, 32, 32, 0, 0, true, 15⟩ ⟨false, false, false⟩).isJumping =
        false ↔
      landingFired ⟨600, 50, 32, 32, 0, 0, true, 15⟩ ⟨false, false, false⟩) :=
  ⟨rfl, isJumping_only_landing ⟨600, 50, 32, 32, 0, 0, true, 15⟩ ⟨false, false, false⟩ rfl⟩

end CoinGame
